import Mathlib

/-!
Verification development for the oxen-logging categorized-logger core
(`src/src/catlogger.cpp`, `src/include/oxen/log/catlogger.hpp`).

The registry is the static state of `CategoryLogger`: an unordered map
from category name to a shared logger pointer, plus the default level for
newly created loggers.  We embed it as an explicit state record:
logger objects live in an append-only store (`store`), and the shared
pointer identity of a logger is its index into that store, so pointer
equality in the C++ becomes `Nat` equality of ids here.  The map is an
association list to which entries are only ever appended (the C++ code
never erases from `loggers_`).
-/

namespace OxenLog

/-- Modelled from the spec: the severity `Level` enum from `level.hpp`
(not present under `src/`): trace < debug < info < warn < error <
critical < off.  The catlogger core treats it as an opaque value type. -/
inductive Level where
  | trace
  | debug
  | info
  | warn
  | err
  | critical
  | off
  deriving DecidableEq, Repr

/-- A backend `spdlog::logger` object as created by `find_or_make_logger`:
it records the category name, the sink it was attached to, and its
current severity level.  Identity (the shared pointer) is the index of
the object in `RegistryState.store`. -/
structure Logger where
  name : String
  sink : Nat
  level : Level
  deriving DecidableEq, Repr

/-- The static state of `CategoryLogger` in `catlogger.cpp`:
`loggers_` is the name → logger-pointer map (pointers are ids into
`store`), `store` is the heap of logger objects created so far (ids are
indices, so a fresh id is `store.length`), and `loggers_default_level_`
is the default level given to newly created loggers. -/
structure RegistryState where
  loggers_ : List (String × Nat)
  store : List Logger
  loggers_default_level_ : Level
  deriving DecidableEq, Repr

/-- Lookup in the `loggers_` map (first match; keys are unique because
the code only inserts a name it failed to find). -/
def lookupLogger : List (String × Nat) → String → Option Nat
  | [], _ => none
  | (k, v) :: rest, n => if k = n then some v else lookupLogger rest n

/-- `CategoryLogger::master_sink`: the one process-wide distribution
sink, created once during static initialization.  We model sink identity
as a fixed id. -/
def master_sink : Nat := 0

/-- The initial static state: `loggers_` and the store start empty and
`loggers_default_level_` is initialized to `Level::info`
(`catlogger.cpp` line 12). -/
def initState : RegistryState :=
  { loggers_ := [], store := [], loggers_default_level_ := Level.info }

/-- A `CategoryLogger` handle: the atomic `have_logger` flag, the cached
shared logger pointer (absent until resolution), and the immutable
category `name`. -/
structure CategoryLogger where
  have_logger : Bool
  logger : Option Nat
  name : String
  deriving DecidableEq, Repr

/-- The `CategoryLogger` constructor (and the `Cat` shortcut): stores the
name, leaves `have_logger` false and the cached pointer empty, and does
not touch the registry (it takes no `RegistryState`). -/
def Cat (name : String) : CategoryLogger :=
  { have_logger := false, logger := none, name := name }

/-- `CategoryLogger::find_or_make_logger` (`catlogger.cpp` lines 15-28):
under the registry mutex, return immediately if already resolved;
otherwise look the name up in `loggers_` (the C++ uses `operator[]`,
which default-inserts a null pointer, then fills it in if null — net
effect: find or create).  A created logger is attached to `master_sink`
and given the current default level.  Either way the handle caches the
shared pointer and sets `have_logger`. -/
def find_or_make_logger (h : CategoryLogger) (s : RegistryState) :
    CategoryLogger × RegistryState :=
  if h.have_logger then (h, s)
  else
    match lookupLogger s.loggers_ h.name with
    | some id => ({ h with logger := some id, have_logger := true }, s)
    | none =>
        let id := s.store.length
        let newLogger : Logger :=
          { name := h.name, sink := master_sink, level := s.loggers_default_level_ }
        ({ h with logger := some id, have_logger := true },
         { s with
            loggers_ := s.loggers_ ++ [(h.name, id)],
            store := s.store ++ [newLogger] })

/-- `CategoryLogger::operator const logger_ptr&` (`catlogger.hpp` lines
62-67): fast path returns the cached pointer when `have_logger` is set;
otherwise it calls `find_or_make_logger` and returns the now-cached
pointer.  Returns the pointer together with the updated handle and
state. -/
def CategoryLogger.access (h : CategoryLogger) (s : RegistryState) :
    Option Nat × CategoryLogger × RegistryState :=
  if h.have_logger then (h.logger, h, s)
  else
    let r := find_or_make_logger h s
    (r.1.logger, r.1, r.2)

/-- `for_each_cat_logger` (`catlogger.cpp` lines 30-39): under the
registry mutex, if `f` is given, call it on each `(name, logger)` entry
of `loggers_` (passing the logger pointer id); then, if `and_then` is
given, call it.  The callbacks are modelled as state transformers over
an arbitrary callback-state type `α`. -/
def for_each_cat_logger {α : Type} (f : Option (String → Nat → α → α))
    (and_then : Option (α → α)) (s : RegistryState) (a : α) : α :=
  let a1 :=
    match f with
    | none => a
    | some fv => s.loggers_.foldl (fun acc p => fv p.1 p.2 acc) a
  match and_then with
  | none => a1
  | some g => g a1

/-- `detail::set_default_catlogger_level` (`catlogger.cpp` lines 43-45):
assigns `loggers_default_level_` and touches nothing else. -/
def set_default_catlogger_level (level : Level) (s : RegistryState) : RegistryState :=
  { s with loggers_default_level_ := level }

/-- `detail::get_default_catlogger_level` (`catlogger.cpp` lines 47-49). -/
def get_default_catlogger_level (s : RegistryState) : Level :=
  s.loggers_default_level_

/-- One operation of the core's public surface, for stating invariants
over arbitrary operation sequences. -/
inductive Op where
  | construct (name : String)
  | resolve (name : String)
  | setDefault (level : Level)
  | enumerate
  deriving DecidableEq, Repr

/-- The registry-state effect of one operation: handle construction and
enumeration (whose callbacks act on external state only) do not change
the registry; `resolve` runs `find_or_make_logger` on a fresh handle;
`setDefault` runs the default-level setter. -/
def runOp (s : RegistryState) : Op → RegistryState
  | .construct _ => s
  | .resolve n => (find_or_make_logger (Cat n) s).2
  | .setDefault l => set_default_catlogger_level l s
  | .enumerate => s

/-- Run a sequence of operations on the registry state. -/
def runOps (s : RegistryState) (ops : List Op) : RegistryState :=
  ops.foldl runOp s

/-- An observable event of a `for_each_cat_logger` call: one visit of a
`(name, logger id)` pair, or the `and_then` follow-up. -/
inductive EnumEvent where
  | visit (name : String) (id : Nat)
  | followup
  deriving DecidableEq, Repr

end OxenLog

namespace OxenLog

/-- Helper: a successful map lookup is stable under appending entries. -/
theorem lookupLogger_append (m l : List (String × Nat)) (n : String) (i : Nat)
    (h : lookupLogger m n = some i) : lookupLogger (m ++ l) n = some i := by
  induction m with
  | nil => simp [lookupLogger] at h
  | cons p rest ih =>
      obtain ⟨k, v⟩ := p
      by_cases hk : k = n
      · simp [lookupLogger, hk] at h ⊢
        exact h
      · simp [lookupLogger, hk] at h ⊢
        exact ih h

/-- Helper: appending a fresh key makes it found. -/
theorem lookupLogger_append_self (m : List (String × Nat)) (n : String) (i : Nat)
    (h : lookupLogger m n = none) : lookupLogger (m ++ [(n, i)]) n = some i := by
  induction m with
  | nil => simp [lookupLogger]
  | cons p rest ih =>
      obtain ⟨k, v⟩ := p
      by_cases hk : k = n
      · simp [lookupLogger, hk] at h
      · simp [lookupLogger, hk] at h ⊢
        exact ih h

/-- Helper: resolution of a fresh handle when the name is registered. -/
theorem find_or_make_found (s : RegistryState) (n : String) (i : Nat)
    (h : lookupLogger s.loggers_ n = some i) :
    find_or_make_logger (Cat n) s =
      ({ have_logger := true, logger := some i, name := n }, s) := by
  simp [find_or_make_logger, Cat, h]

/-- Helper: resolution of a fresh handle when the name is absent. -/
theorem find_or_make_absent (s : RegistryState) (n : String)
    (h : lookupLogger s.loggers_ n = none) :
    find_or_make_logger (Cat n) s =
      ({ have_logger := true, logger := some s.store.length, name := n },
       { s with
          loggers_ := s.loggers_ ++ [(n, s.store.length)],
          store := s.store ++
            [{ name := n, sink := master_sink, level := s.loggers_default_level_ }] }) := by
  simp [find_or_make_logger, Cat, h]

/-- Helper: resolving a fresh handle always yields an id that the new
state maps the name to. -/
theorem resolve_lookup (s : RegistryState) (n : String) :
    ∃ i, (find_or_make_logger (Cat n) s).1.logger = some i ∧
      lookupLogger (find_or_make_logger (Cat n) s).2.loggers_ n = some i := by
  cases hm : lookupLogger s.loggers_ n with
  | some j =>
      exact ⟨j, by simp [find_or_make_found s n j hm],
        by simp [find_or_make_found s n j hm, hm]⟩
  | none =>
      refine ⟨s.store.length, by simp [find_or_make_absent s n hm], ?_⟩
      rw [find_or_make_absent s n hm]
      exact lookupLogger_append_self _ _ _ hm

/-- Helper: no single operation removes or replaces a registry entry. -/
theorem runOp_preserves_lookup (s : RegistryState) (op : Op) (n : String) (i : Nat)
    (h : lookupLogger s.loggers_ n = some i) :
    lookupLogger (runOp s op).loggers_ n = some i := by
  cases op with
  | construct m => exact h
  | enumerate => exact h
  | setDefault l => exact h
  | resolve m =>
      cases hm : lookupLogger s.loggers_ m with
      | some j =>
          show lookupLogger (find_or_make_logger (Cat m) s).2.loggers_ n = some i
          rw [find_or_make_found s m j hm]
          exact h
      | none =>
          show lookupLogger (find_or_make_logger (Cat m) s).2.loggers_ n = some i
          rw [find_or_make_absent s m hm]
          exact lookupLogger_append _ _ _ _ h

/-- Helper: no single operation removes or mutates a stored logger. -/
theorem runOp_store_prefix (s : RegistryState) (op : Op) :
    ∃ t, (runOp s op).store = s.store ++ t := by
  cases op with
  | construct m => exact ⟨[], by simp [runOp]⟩
  | enumerate => exact ⟨[], by simp [runOp]⟩
  | setDefault l => exact ⟨[], by simp [runOp, set_default_catlogger_level]⟩
  | resolve m =>
      cases hm : lookupLogger s.loggers_ m with
      | some j =>
          exact ⟨[], by
            show (find_or_make_logger (Cat m) s).2.store = _
            rw [find_or_make_found s m j hm]; simp⟩
      | none =>
          refine ⟨[Logger.mk m master_sink s.loggers_default_level_], ?_⟩
          show (find_or_make_logger (Cat m) s).2.store = _
          rw [find_or_make_absent s m hm]

/-- Helper: lookup preservation over a whole operation sequence. -/
theorem runOps_preserves_lookup (ops : List Op) (s : RegistryState) (n : String) (i : Nat)
    (h : lookupLogger s.loggers_ n = some i) :
    lookupLogger (runOps s ops).loggers_ n = some i := by
  induction ops generalizing s with
  | nil => exact h
  | cons op rest ih => exact ih _ (runOp_preserves_lookup s op n i h)

/-- Helper: the store only grows over a whole operation sequence. -/
theorem runOps_store_prefix (ops : List Op) (s : RegistryState) :
    ∃ t, (runOps s ops).store = s.store ++ t := by
  induction ops generalizing s with
  | nil => exact ⟨[], by simp [runOps]⟩
  | cons op rest ih =>
      obtain ⟨t1, h1⟩ := runOp_store_prefix s op
      obtain ⟨t2, h2⟩ := ih (runOp s op)
      refine ⟨t1 ++ t2, ?_⟩
      show (runOps (runOp s op) rest).store = _
      rw [h2, h1, List.append_assoc]

end OxenLog

namespace OxenLog

/-- Helper: folding an emit-one-event callback over a list appends one
event per element, in list order. -/
theorem foldl_emit {β : Type} (g : String × Nat → β) (l : List (String × Nat))
    (a : List β) :
    l.foldl (fun acc p => acc ++ [g p]) a = a ++ l.map g := by
  induction l generalizing a with
  | nil => simp
  | cons p rest ih =>
      rw [List.foldl_cons, ih]
      simp

/-- Claim C1: repeated resolution of handles with the same name, with any
sequence of other operations interleaved, always returns the identical
logger id, and the repeat resolution leaves the registry unchanged (no
second logger is ever created for the name). -/
theorem c1_resolution_identity (s : RegistryState) (ops : List Op) (n : String) :
    (find_or_make_logger (Cat n)
        (runOps (find_or_make_logger (Cat n) s).2 ops)).1.logger =
      (find_or_make_logger (Cat n) s).1.logger ∧
    (find_or_make_logger (Cat n)
        (runOps (find_or_make_logger (Cat n) s).2 ops)).2 =
      runOps (find_or_make_logger (Cat n) s).2 ops := by
  obtain ⟨i, hlog, hlook⟩ := resolve_lookup s n
  have h2 := runOps_preserves_lookup ops _ n i hlook
  rw [find_or_make_found _ n i h2]
  exact ⟨by rw [hlog], rfl⟩

/-- Claim C2: resolving an unresolved handle when the name is absent
creates one logger attached to the master sink at the current default
level, inserts it under the name, caches the reference and marks the
handle resolved; when the name is present it caches the existing
reference and changes nothing. -/
theorem c2_find_or_make_spec (s : RegistryState) (n : String) :
    (lookupLogger s.loggers_ n = none →
      find_or_make_logger (Cat n) s =
        ({ have_logger := true, logger := some s.store.length, name := n },
         { s with
            loggers_ := s.loggers_ ++ [(n, s.store.length)],
            store := s.store ++
              [{ name := n, sink := master_sink,
                 level := s.loggers_default_level_ }] })) ∧
    (∀ i, lookupLogger s.loggers_ n = some i →
      find_or_make_logger (Cat n) s =
        ({ have_logger := true, logger := some i, name := n }, s)) :=
  ⟨fun h => find_or_make_absent s n h, fun i h => find_or_make_found s n i h⟩

/-- Witness for C2 at a concrete input: resolving "net" in the initial
state creates logger id 0 at level info on the master sink. -/
theorem c2_find_or_make_spec_witness :
    find_or_make_logger (Cat "net") initState =
      ({ have_logger := true, logger := some initState.store.length, name := "net" },
       { initState with
          loggers_ := initState.loggers_ ++ [("net", initState.store.length)],
          store := initState.store ++
            [{ name := "net", sink := master_sink,
               level := initState.loggers_default_level_ }] }) :=
  (c2_find_or_make_spec initState "net").1 rfl

/-- Claim C3: handle construction only stores the name (flag false, no
cached logger) and touches no registry state: any sequence of
constructions leaves the state exactly as it was. -/
theorem c3_construct_pure (n : String) :
    Cat n = { have_logger := false, logger := none, name := n } ∧
    ∀ (s : RegistryState) (names : List String),
      runOps s (names.map Op.construct) = s := by
  refine ⟨rfl, fun s names => ?_⟩
  induction names generalizing s with
  | nil => rfl
  | cons m rest ih => exact ih s

/-- Claim C4: once a handle is resolved, a further `find_or_make_logger`
call changes neither the handle nor the registry, and access returns the
cached reference unchanged. -/
theorem c4_resolved_handle_stable (h : CategoryLogger) (s : RegistryState)
    (hres : h.have_logger = true) :
    find_or_make_logger h s = (h, s) ∧
    h.access s = (h.logger, h, s) := by
  constructor
  · simp [find_or_make_logger, hres]
  · simp [CategoryLogger.access, hres]

/-- Witness for C4 at a concrete resolved handle. -/
theorem c4_resolved_handle_stable_witness :
    find_or_make_logger
        { have_logger := true, logger := some 0, name := "net" } initState =
      ({ have_logger := true, logger := some 0, name := "net" }, initState) :=
  (c4_resolved_handle_stable
    { have_logger := true, logger := some 0, name := "net" } initState rfl).1

/-- Claim C5: setting the default level changes only the stored default:
the map and every stored logger (hence every already-created logger's
level) are untouched; a name absent before the call resolves to a new
logger whose level is the new default, and a name already present
resolves to the existing logger with no state change. -/
theorem c5_set_default_frame (s : RegistryState) (L : Level) :
    (set_default_catlogger_level L s).loggers_ = s.loggers_ ∧
    (set_default_catlogger_level L s).store = s.store ∧
    (set_default_catlogger_level L s).loggers_default_level_ = L ∧
    (∀ n, lookupLogger s.loggers_ n = none →
      (find_or_make_logger (Cat n) (set_default_catlogger_level L s)).2.store =
        s.store ++ [{ name := n, sink := master_sink, level := L }]) ∧
    (∀ n i, lookupLogger s.loggers_ n = some i →
      find_or_make_logger (Cat n) (set_default_catlogger_level L s) =
        ({ have_logger := true, logger := some i, name := n },
         set_default_catlogger_level L s)) := by
  refine ⟨rfl, rfl, rfl, fun n hn => ?_, fun n i hi => ?_⟩
  · rw [find_or_make_absent (set_default_catlogger_level L s) n hn]
    simp [set_default_catlogger_level]
  · exact find_or_make_found (set_default_catlogger_level L s) n i hi

/-- Witness for C5 at concrete inputs: with "net" registered at level
info, setting the default to warn then resolving the absent "disk"
creates its logger at level warn, while the "net" logger is untouched. -/
theorem c5_set_default_frame_witness :
    (set_default_catlogger_level Level.warn
        (runOp initState (Op.resolve "net"))).store =
      (runOp initState (Op.resolve "net")).store ∧
    (find_or_make_logger (Cat "disk")
        (set_default_catlogger_level Level.warn
          (runOp initState (Op.resolve "net")))).2.store =
      (runOp initState (Op.resolve "net")).store ++
        [{ name := "disk", sink := master_sink, level := Level.warn }] :=
  ⟨(c5_set_default_frame (runOp initState (Op.resolve "net")) Level.warn).2.1,
   (c5_set_default_frame (runOp initState (Op.resolve "net")) Level.warn).2.2.2.1
     "disk" (by decide)⟩

/-- Claim C6: with event-trace callbacks, `for_each_cat_logger` emits
exactly one visit event per registry entry (in map order) followed by
exactly one follow-up event; a missing visit callback emits no visits
and a missing follow-up callback emits no follow-up. -/
theorem c6_for_each_spec (s : RegistryState) :
    (for_each_cat_logger (some fun n id acc => acc ++ [EnumEvent.visit n id])
        (some fun acc => acc ++ [EnumEvent.followup]) s [] =
      (s.loggers_.map fun p => EnumEvent.visit p.1 p.2) ++ [EnumEvent.followup]) ∧
    (for_each_cat_logger (some fun n id acc => acc ++ [EnumEvent.visit n id])
        none s ([] : List EnumEvent) =
      s.loggers_.map fun p => EnumEvent.visit p.1 p.2) ∧
    (for_each_cat_logger
        (none : Option (String → Nat → List EnumEvent → List EnumEvent))
        (some fun acc => acc ++ [EnumEvent.followup]) s [] =
      [EnumEvent.followup]) ∧
    (for_each_cat_logger
        (none : Option (String → Nat → List EnumEvent → List EnumEvent))
        none s ([] : List EnumEvent) = []) := by
  refine ⟨?_, ?_, rfl, rfl⟩
  · show (s.loggers_.foldl
        (fun acc p => acc ++ [EnumEvent.visit p.1 p.2]) []) ++ [EnumEvent.followup] = _
    rw [foldl_emit (fun p => EnumEvent.visit p.1 p.2) s.loggers_ []]
    simp
  · show s.loggers_.foldl (fun acc p => acc ++ [EnumEvent.visit p.1 p.2]) [] = _
    rw [foldl_emit (fun p => EnumEvent.visit p.1 p.2) s.loggers_ []]
    simp

/-- Claim C7: on an empty registry, `for_each_cat_logger` invokes the
visit callback zero times (whatever it is) and still emits exactly the
follow-up. -/
theorem c7_for_each_empty (s : RegistryState) (h : s.loggers_ = []) :
    ∀ fv : String → Nat → List EnumEvent → List EnumEvent,
      for_each_cat_logger (some fv) (some fun acc => acc ++ [EnumEvent.followup]) s
        ([] : List EnumEvent) = [EnumEvent.followup] := by
  intro fv
  simp [for_each_cat_logger, h]

/-- Witness for C7 at the initial (empty) registry. -/
theorem c7_for_each_empty_witness :
    for_each_cat_logger (some fun n id acc => acc ++ [EnumEvent.visit n id])
        (some fun acc => acc ++ [EnumEvent.followup]) initState
        ([] : List EnumEvent) = [EnumEvent.followup] :=
  c7_for_each_empty initState rfl _

/-- Claim C8: two handles with the same name resolved one after the
other (either serialization order of the mutex) converge to the same
logger id, the second resolution changes nothing, and at most one logger
is created in total. -/
theorem c8_concurrent_convergence (s : RegistryState) (n : String) :
    (find_or_make_logger (Cat n) (find_or_make_logger (Cat n) s).2).2 =
      (find_or_make_logger (Cat n) s).2 ∧
    (find_or_make_logger (Cat n) (find_or_make_logger (Cat n) s).2).1.logger =
      (find_or_make_logger (Cat n) s).1.logger ∧
    (find_or_make_logger (Cat n) s).2.store.length ≤ s.store.length + 1 := by
  obtain ⟨i, hlog, hlook⟩ := resolve_lookup s n
  rw [find_or_make_found _ n i hlook]
  refine ⟨rfl, by rw [hlog], ?_⟩
  cases hm : lookupLogger s.loggers_ n with
  | some j => rw [find_or_make_found s n j hm]; exact Nat.le_succ_of_le (Nat.le_refl _)
  | none => rw [find_or_make_absent s n hm]; simp

/-- Claim C9: the registry only grows: over any operation sequence,
every existing (name, logger id) entry remains with the same id, and
every stored logger object at an existing id is unchanged. -/
theorem c9_registry_grows_only (s : RegistryState) (ops : List Op) (n : String)
    (i : Nat) (h : lookupLogger s.loggers_ n = some i) :
    lookupLogger (runOps s ops).loggers_ n = some i ∧
    ∀ j, j < s.store.length → (runOps s ops).store[j]? = s.store[j]? := by
  refine ⟨runOps_preserves_lookup ops s n i h, fun j hj => ?_⟩
  obtain ⟨t, ht⟩ := runOps_store_prefix ops s
  rw [ht, List.getElem?_append, if_pos hj]

/-- Witness for C9 at a concrete input: the "net" entry created first
survives a later resolution, a default-level change and an enumeration. -/
theorem c9_registry_grows_only_witness :
    lookupLogger (runOps (runOp initState (Op.resolve "net"))
        [Op.resolve "disk", Op.setDefault Level.warn, Op.enumerate,
         Op.construct "x"]).loggers_ "net" = some 0 :=
  (c9_registry_grows_only (runOp initState (Op.resolve "net"))
    [Op.resolve "disk", Op.setDefault Level.warn, Op.enumerate, Op.construct "x"]
    "net" 0 (by decide)).1

/-- Claim C10: the default level is a round trip — after setting L the
getter returns L — and the initial default is info. -/
theorem c10_default_level_roundtrip :
    (∀ (L : Level) (s : RegistryState),
      get_default_catlogger_level (set_default_catlogger_level L s) = L) ∧
    get_default_catlogger_level initState = Level.info :=
  ⟨fun _ _ => rfl, rfl⟩

end OxenLog
